import Mathlib

/-!
# Verification of the multi-round generation-and-publication orchestrator

A shallow embedding, in Lean 4, of the core of an automated task-handling
service (a FastAPI application in `src/app/`): a gateway that accepts task
requests, an orchestrator that drives one generation round to completion,
a generation client that builds round-aware prompts and validates the
backend's parsed output, a repository publisher wrapping a hosting
platform's file store, and a bounded exponential-backoff retry wrapper
(built on the `tenacity` library).

Python machine-level details are modelled as follows: exceptions become
`Except PyExc`; Python dicts (which preserve insertion order) become
association lists with unique keys; mutable platform state becomes an
explicit `RepoStore` threaded through each operation, returned even on
failure so that earlier effects remain visible; outcomes of external
network calls (the generation backend, the platform's pages API, the
evaluation callback) are supplied as explicit oracle values.
-/

/-- The Python exception values that the embedded code can raise or
inspect.  `githubException` carries the HTTP status used by the code's
`e.status == 404` branches; `retryError` is tenacity's `RetryError`
wrapper raised when a retry-decorated call exhausts its attempts with
`reraise` left at its default `False`. -/
inductive PyExc where
  | httpError : String → PyExc
  | connectionError : String → PyExc
  | valueError : String → PyExc
  | typeError : String → PyExc
  | githubException : Nat → String → PyExc
  | retryError : PyExc → PyExc
deriving DecidableEq

/-- `True` exactly for the platform's not-found signal (`GithubException`
with status 404), the one error the services branch on instead of
propagating. -/
def PyExc.isNotFound : PyExc → Bool
  | .githubException 404 _ => true
  | _ => false

/-- `True` exactly for the platform's `GithubException` errors — the
class (and the only class) that the pages-enablement step absorbs. -/
def isGithubExc : PyExc → Bool
  | .githubException _ _ => true
  | _ => false

/- ## String helpers -/

/-- Python string slicing `s[:n]`: the first `n` characters. -/
def strTake (s : String) (n : Nat) : String := ⟨s.data.take n⟩

/-- `needle` occurs as a contiguous substring of `hay`. -/
def strContains (hay needle : String) : Prop :=
  ∃ a b : List Char, hay.data = a ++ needle.data ++ b

theorem strContains_self (s : String) : strContains s s :=
  ⟨[], [], by simp⟩

theorem strContains_appendL {s n : String} (t : String) (h : strContains s n) :
    strContains (s ++ t) n := by
  obtain ⟨a, b, hab⟩ := h
  exact ⟨a, b ++ t.data, by simp [String.data_append, hab]⟩

theorem strContains_appendR {t n : String} (s : String) (h : strContains t n) :
    strContains (s ++ t) n := by
  obtain ⟨a, b, hab⟩ := h
  exact ⟨s.data ++ a, b, by simp [String.data_append, hab]⟩

/-- The needle occurs inside the middle factor of a three-part
concatenation. -/
theorem strContains_middle (s t u n : String) (h : strContains t n) :
    strContains (s ++ t ++ u) n :=
  strContains_appendL u (strContains_appendR s h)

/- ## Retry Policy (src/app/utils/retry.py, on the tenacity library)

`create_retry_decorator(max_attempts=10)` configures tenacity with
`retry_if_exception_type((httpx.HTTPError, ConnectionError))`,
`wait_exponential(multiplier=1, min=1, max=60)` and
`stop_after_attempt(max_attempts)`.  The `reraise` flag is left at its
default `False`, so exhausting the attempts raises `RetryError` wrapping
the last attempt's exception rather than the exception itself. -/

/-- The error classification from `retry_if_exception_type((httpx.HTTPError,
ConnectionError))`: only transport/connection errors are retried. -/
def isRetryableExc : PyExc → Bool
  | .httpError _ => true
  | .connectionError _ => true
  | _ => false

/-- tenacity `wait_exponential(multiplier=1, min=1, max=60)` evaluated
after attempt number `n` (1-based): `clamp(min, max, multiplier *
2^(n-1))`.  All values involved are integral, so natural-number
arithmetic is exact. -/
def waitExponential (n : Nat) : Nat :=
  max 1 (min (2 ^ (n - 1)) 60)

/-- One execution of tenacity's retry loop, structurally recursing on the
remaining-retries fuel.  `op k` is the outcome of the `k`-th invocation
(1-based) of the wrapped operation.  Returns the final outcome, the
number of invocations performed, and the list of inter-attempt sleeps.
Mirrors `BaseRetrying.iter`: a successful attempt returns its value; a
non-retryable exception is re-raised at once; otherwise, if
`stop_after_attempt` triggers (`attempt_number >= max`, i.e. fuel is
exhausted), `RetryError` wrapping the last exception is raised; else the
loop sleeps `waitExponential` and re-invokes. -/
def retryLoop (op : Nat → Except PyExc α) : Nat → Nat → Except PyExc α × Nat × List Nat
  | attemptNumber, fuel =>
    match op attemptNumber with
    | .ok v => (.ok v, attemptNumber, [])
    | .error e =>
      if isRetryableExc e then
        match fuel with
        | 0 => (.error (.retryError e), attemptNumber, [])
        | f + 1 =>
          let rest := retryLoop op (attemptNumber + 1) f
          (rest.1, rest.2.1, waitExponential attemptNumber :: rest.2.2)
      else (.error e, attemptNumber, [])

/-- A call to an operation wrapped by `create_retry_decorator
maxAttempts`: at most `maxAttempts` invocations in total. -/
def retryCall (op : Nat → Except PyExc α) (maxAttempts : Nat) :
    Except PyExc α × Nat × List Nat :=
  retryLoop op 1 (maxAttempts - 1)

example : retryCall (fun n => if n ≤ 3 then Except.error (PyExc.httpError "t") else Except.ok 7) 10
    = (Except.ok 7, 4, [1, 2, 4]) := rfl

/- ## Data model (src/app/models.py) -/

/-- `Attachment`: a pydantic model with a name and a URL (often a data
URI).  Being a pydantic `BaseModel` instance, it is not serializable by
`json.dumps`'s default encoder. -/
structure Attachment where
  name : String
  url : String
deriving DecidableEq

/-- `TaskRequest`: one inbound unit of work. -/
structure TaskRequest where
  email : String
  secret : String
  task : String
  round : Int
  nonce : String
  brief : String
  checks : List String
  evaluation_url : String
  attachments : List Attachment
deriving DecidableEq

/-- `EvaluationResponse`: the record posted to the evaluation callback.
The commit identifier is modelled as the repository's commit counter. -/
structure EvaluationResponse where
  email : String
  task : String
  round : Int
  nonce : String
  repo_url : String
  commit_sha : Nat
  pages_url : String
deriving DecidableEq

/-- `TaskResponse`: the immediate acknowledgment returned by `POST /task`. -/
structure TaskResponse where
  status : String
  message : String
  task : String
  round : Int
deriving DecidableEq

/-- A Round Record as persisted in repository-durable storage: round
number, brief, checks, and the attachment names (spec §3, "Round
Record"). -/
structure RoundRecord where
  round : Int
  brief : String
  checks : List String
  attachmentNames : List String
deriving DecidableEq

/- ## Generation Client (src/app/services/llm_service.py) -/

/-- `json.dumps` applied to a list of `Attachment` pydantic model
objects with the default encoder: pydantic `BaseModel` instances are not
JSON serializable, so a non-empty list raises `TypeError`; the empty
list serializes to `"[]"`. -/
def jsonDumpsAttachments (attachments : List Attachment) : Except PyExc String :=
  match attachments with
  | [] => .ok "[]"
  | _ :: _ => .error (.typeError "Object of type Attachment is not JSON serializable")

/-- The `attachment_info` block of `_create_prompt`: empty when the
attachment list is falsy, otherwise a header followed by the
`json.dumps` of the attachment list (which raises on pydantic models). -/
def attachmentInfoBlock (attachments : List Attachment) : Except PyExc String :=
  match attachments with
  | [] => .ok ""
  | _ :: _ =>
    match jsonDumpsAttachments attachments with
    | .error e => .error e
    | .ok dumped =>
      .ok ("\n=== ATTACHMENTS ===\n"
        ++ "The following attachments are provided as data URIs. Use them in your application:\n\n"
        ++ dumped ++ "\n")

/-- The `enumerate(checks, 1)` loop body of the checks block. -/
def numberedChecks : Nat → List String → String
  | _, [] => ""
  | i, c :: cs => toString i ++ ". " ++ c ++ "\n" ++ numberedChecks (i + 1) cs

/-- The `checks_info` block of `_create_prompt`: empty when `checks` is
falsy (None or the empty list). -/
def checksInfoBlock (checks : Option (List String)) : String :=
  match checks with
  | some (c :: cs) =>
    "\n=== ⚠️ MANDATORY CHECKS - MUST ALL PASS ⚠️ ===\n"
    ++ "Your application WILL BE TESTED against these exact checks:\n\n"
    ++ numberedChecks 1 (c :: cs)
    ++ "\nIMPORTANT: Every single check must pass EXACTLY. Pay attention to:\n"
    ++ "- Exact element IDs\n"
    ++ "- Exact text content and values\n"
    ++ "- Exact page titles\n"
    ++ "- Correct calculations from data\n"
    ++ "- Case sensitivity and formatting\n\n"
  | _ => ""

/-- A single ASCII apostrophe, as produced by Python's `repr` of a
string. -/
def pyQuoteChar : String := String.singleton (Char.ofNat 39)

/-- Python's rendering of `list` of `str` under `f"{...}"`, e.g.
`['a.png', 'b.csv']`. -/
def pyStrList (xs : List String) : String :=
  "[" ++ String.intercalate ", " (xs.map (fun x => pyQuoteChar ++ x ++ pyQuoteChar)) ++ "]"

/-- The `  ✓ {check}` lines of one prior round's checks. -/
def prevChecksLines : List String → String
  | [] => ""
  | c :: cs => "  ✓ " ++ c ++ "\n" ++ prevChecksLines cs

/-- One `--- Round k ---` block of the previous-rounds history section. -/
def roundHistoryBlock (r : RoundRecord) : String :=
  "\n--- Round " ++ toString r.round ++ " ---\n"
  ++ "Brief: " ++ r.brief ++ "\n"
  ++ (match r.checks with
      | [] => ""
      | c :: cs => "Required Checks (must still pass):\n" ++ prevChecksLines (c :: cs))
  ++ (match r.attachmentNames with
      | [] => ""
      | _ :: _ => "Attachments: " ++ pyStrList r.attachmentNames ++ "\n")

/-- The concatenation of all previous rounds' history blocks. -/
def historyBlocks : List RoundRecord → String
  | [] => ""
  | r :: rs => roundHistoryBlock r ++ historyBlocks rs

/-- `display_content`: file content shown in the round-≥2 prompt,
truncated with a marker when its length is at or over 5000 characters. -/
def displayContent (content : String) : String :=
  if content.length < 5000 then content else strTake content 5000 ++ "\n... (truncated)"

/-- One `File: path` block of the current-repository-code section. -/
def fileBlock (fp content : String) : String :=
  "\nFile: " ++ fp ++ "\n```\n" ++ displayContent content ++ "\n```\n"

/-- The concatenation of all file blocks, in dict insertion order. -/
def filesSection : List (String × String) → String
  | [] => ""
  | (fp, c) :: rest => fileBlock fp c ++ filesSection rest

/-- The fixed tail of the round-1 prompt template. -/
def round1Tail : String :=
  "=== CRITICAL REQUIREMENTS ===
You MUST ensure the application meets these exact specifications. Each requirement will be verified:

1. The application must be fully functional and work correctly
2. All HTML elements with specific IDs must exist exactly as specified
3. All text content must match exactly (including numbers, formatting, case)
4. All page titles, headings, and labels must match exactly as specified
5. If attachments are provided, you MUST handle them correctly:
   - For CSV files: Use JavaScript to decode the base64 content and parse it as CSV
   - For images: Use the data URI directly in your HTML as the image source
   - For JSON files: Decode the base64 content and parse it as JSON
   - Always follow the specific requirements in the brief for processing the data

6. All calculations must be accurate to the exact decimal places shown
7. The application must be self-contained and work immediately when opened

=== ATTACHMENT HANDLING ===
Data URIs are in the format: data:[<MIME type>][;base64],<data>
Decode base64 content as needed for each file type.

=== TECHNICAL REQUIREMENTS ===
- Generate a single-page application with HTML, CSS, and JavaScript
- Include all necessary code inline (no external dependencies)
- If processing data files (CSV, JSON, etc.), include the logic to parse and use them
- For images, use data URIs directly in your HTML/CSS
- Use proper error handling
- Add clear comments explaining the logic
- Make it visually clean and professional
- Ensure responsive design

=== FILE STRUCTURE ===
Return a JSON object where:
- Keys are file paths (e.g., \"index.html\", \"styles.css\", \"script.js\")
- Values are the complete file contents
- You MUST include \"index.html\" at minimum

IMPORTANT: Read the brief and checks carefully. Implement EXACTLY what is requested. Every detail matters and will be tested.
"

/-- The round-1 prompt (`round_num == 1` branch of `_create_prompt`). -/
def round1Prompt (brief checksInfo attachmentInfo : String) : String :=
  "\nCreate a complete, fully functional web application that STRICTLY meets ALL requirements.\n\n=== USER BRIEF ===\n"
  ++ brief ++ "\n\n" ++ checksInfo ++ "\n\n" ++ attachmentInfo ++ "\n\n"
  ++ round1Tail

/-- The fixed tail appended to the round-≥2 prompt. -/
def round2Tail : String :=
  "\n=== ATTACHMENT HANDLING ===
Data URIs are in the format: data:[<MIME type>][;base64],<data>
Decode the base64 content as needed for each file type.


=== CRITICAL REQUIREMENTS ===
1. Implement ALL new requirements from the current brief
2. Maintain ALL functionality from previous rounds
3. Ensure all previous checks still pass
4. Verify new checks will pass EXACTLY
5. Update or add files as needed
6. Keep the application fully functional
7. Properly decode and handle any attachments

=== TECHNICAL REQUIREMENTS ===
- Modify or extend existing files as needed
- Ensure backward compatibility unless explicitly told to change
- Add proper error handling for new features
- Update comments to reflect changes
- Maintain clean, professional styling

=== OUTPUT FORMAT ===
Return a JSON object with ALL files (both modified and unmodified):
- Keys: file paths
- Values: complete file contents
- Include ALL necessary files for the app to work

IMPORTANT: Every requirement and check must be met exactly. Read carefully and implement precisely. All checks will be tested.
"

/-- The round-≥2 prompt (`else` branch of `_create_prompt`): the update
instruction, then — when truthy — the previous-rounds history block and
the current-repository-code block, then the fixed tail. -/
def round2Prompt (brief checksInfo attachmentInfo : String)
    (previousRounds : Option (List RoundRecord))
    (repoFiles : Option (List (String × String))) : String :=
  "\nUpdate the existing web application to meet these NEW requirements while maintaining previous functionality.\n\n=== NEW REQUIREMENTS (CURRENT ROUND) ===\n"
  ++ brief ++ "\n\n" ++ checksInfo ++ "\n\n" ++ attachmentInfo ++ "\n\n"
  ++ (match previousRounds with
      | some (r :: rs) =>
        "\n=== PREVIOUS ROUNDS HISTORY ===\n" ++ historyBlocks (r :: rs) ++ "\n"
      | _ => "")
  ++ (match repoFiles with
      | some (f :: fs) =>
        "\n=== CURRENT REPOSITORY CODE ===\n" ++ filesSection (f :: fs) ++ "\n"
      | _ => "")
  ++ round2Tail

/-- `LLMService._create_prompt`: builds the attachment block (which
raises `TypeError` on a non-empty list of pydantic attachment objects),
the checks block, and then one of the two round-dependent templates. -/
def create_prompt (brief : String) (attachments : List Attachment) (roundNum : Int)
    (previousRounds : Option (List RoundRecord))
    (repoFiles : Option (List (String × String)))
    (checks : Option (List String)) : Except PyExc String :=
  match attachmentInfoBlock attachments with
  | .error e => .error e
  | .ok attachmentInfo =>
    let checksInfo := checksInfoBlock checks
    if roundNum == 1 then .ok (round1Prompt brief checksInfo attachmentInfo)
    else .ok (round2Prompt brief checksInfo attachmentInfo previousRounds repoFiles)

/-- `LLMService.generate_app`: builds the prompt (which can raise), then
calls the backend; `backend` is the oracle for the parsed JSON object of
the backend's response (`json.loads` of the message content, an
insertion-ordered path→content mapping) or the error raised by the call
or the parse.  A parsed mapping without the `"index.html"` key raises
`ValueError` (the spec's `MissingRootPageError`); otherwise the parsed
mapping is returned unchanged. -/
def generate_app (brief : String) (attachments : List Attachment) (roundNum : Int)
    (previousRounds : Option (List RoundRecord))
    (repoFiles : Option (List (String × String)))
    (checks : Option (List String))
    (backend : Except PyExc (List (String × String))) :
    Except PyExc (List (String × String)) :=
  match create_prompt brief attachments roundNum previousRounds repoFiles checks with
  | .error e => .error e
  | .ok _prompt =>
    match backend with
    | .error e => .error e
    | .ok files =>
      if (files.lookup "index.html").isSome then .ok files
      else .error (.valueError "Generated files must include index.html")

/-- The deterministic templated fallback README returned by
`generate_readme` when the backend call raises. -/
def fallbackReadme (taskName brief : String) (roundNum : Int) : String :=
  "# " ++ taskName ++ "\n\n" ++ brief ++ "\n\n---\n\nRound: " ++ toString roundNum
  ++ "\n\nFeatures:\n- TODO: List features here\n\n## Setup Instructions\n- TODO: Provide setup instructions\n\n## Usage\n- TODO: Explain how to use the app\n\n## Technical Details\n- TODO: Add technical details\n\n## License\nMIT License"

/-- `LLMService.generate_readme`: returns the backend's text on success
and the deterministic templated fallback on any backend failure — it
never raises. -/
def generate_readme (taskName brief : String) (roundNum : Int)
    (backend : Except PyExc String) : String :=
  match backend with
  | .ok content => content
  | .error _ => fallbackReadme taskName brief roundNum

/- ## Repository Publisher (src/app/services/github_service.py)

The hosting platform is modelled as a per-task repository store: a
created flag with the creation-time repository properties, an
insertion-ordered file list where each file carries a content-hash
concurrency token (`sha`), a commit counter (commit identifiers are the
counter values), the durable round-record list, and a pages flag.  Every
operation returns the store even on failure, so earlier effects remain
visible (the system performs no rollback). -/

/-- The properties a repository is created with. -/
structure RepoProps where
  isPrivate : Bool
  hasIssues : Bool
  hasWiki : Bool
  hasDownloads : Bool
  autoInit : Bool
deriving DecidableEq

/-- One file of the repository: path, content, and the content-hash
concurrency token the platform hands out and checks on update. -/
structure GhFile where
  path : String
  content : String
  sha : Nat
deriving DecidableEq

/-- The platform-side state of the task's repository. -/
structure RepoStore where
  created : Bool
  props : RepoProps
  files : List GhFile
  rounds : List RoundRecord
  commits : Nat
  pagesEnabled : Bool
deriving DecidableEq

/-- `repo.get_contents(path)`: the current content and hash token at
`path`, or the platform's not-found signal. -/
def getContents (s : RepoStore) (path : String) : Except PyExc (String × Nat) :=
  match s.files.find? (fun f => f.path == path) with
  | some f => .ok (f.content, f.sha)
  | none => .error (.githubException 404 "Not Found")

/-- `repo.update_file(path, message, content, sha)`: replaces the
content at `path` when the supplied hash token matches the current one
(the platform's compare-and-swap), producing a fresh token and one new
commit; a stale token is rejected, an absent path is not found. -/
def updateFileOp (s : RepoStore) (path content : String) (sha : Nat) :
    RepoStore × Except PyExc Unit :=
  match s.files.find? (fun f => f.path == path) with
  | none => (s, .error (.githubException 404 "Not Found"))
  | some f =>
    if f.sha == sha then
      ({ s with
          files := s.files.map (fun g => if g.path == path then ⟨path, content, s.commits + 1⟩ else g),
          commits := s.commits + 1 }, .ok ())
    else (s, .error (.githubException 409 "Conflict"))

/-- `repo.create_file(path, message, content)`: appends a new file (one
new commit); an already-present path is rejected. -/
def createFileOp (s : RepoStore) (path content : String) :
    RepoStore × Except PyExc Unit :=
  match s.files.find? (fun f => f.path == path) with
  | some _ => (s, .error (.githubException 422 "Invalid request"))
  | none =>
    ({ s with
        files := s.files ++ [⟨path, content, s.commits + 1⟩],
        commits := s.commits + 1 }, .ok ())

/-- The per-file upsert inside `push_files`, parameterized by the
outcome of the `get_contents` lookup: a found file is updated using its
current hash token; the not-found signal leads to a create; any other
lookup error propagates unchanged. -/
def pushOneFileWith (lookup : Except PyExc (String × Nat)) (s : RepoStore)
    (path content : String) : RepoStore × Except PyExc Unit :=
  match lookup with
  | .ok existing => updateFileOp s path content existing.2
  | .error e =>
    if e.isNotFound then createFileOp s path content
    else (s, .error e)

/-- The per-file upsert of `push_files` run against the live store. -/
def pushOneFile (s : RepoStore) (path content : String) : RepoStore × Except PyExc Unit :=
  pushOneFileWith (getContents s path) s path content

/-- The `for file_path, content in files.items()` loop of `push_files`:
upserts each file in dict insertion order, stopping at the first error. -/
def pushFilesLoop (s : RepoStore) : List (String × String) → RepoStore × Except PyExc Unit
  | [] => (s, .ok ())
  | (path, content) :: rest =>
    match pushOneFile s path content with
    | (s1, .ok _) => pushFilesLoop s1 rest
    | (s1, .error e) => (s1, .error e)

/-- `GitHubService.push_files`: looks up the repository, upserts every
file, then reads back the latest commit identifier (`get_commits()[0]`,
which the platform rejects on an empty repository). -/
def push_files (s : RepoStore) (files : List (String × String)) (_commitMessage : String) :
    RepoStore × Except PyExc Nat :=
  if s.created then
    match pushFilesLoop s files with
    | (s1, .ok _) =>
      if s1.commits == 0 then (s1, .error (.githubException 409 "Git Repository is empty"))
      else (s1, .ok s1.commits)
    | (s1, .error e) => (s1, .error e)
  else (s, .error (.githubException 404 "Not Found"))

/-- `repo.html_url` / the deterministic repository URL pattern. -/
def htmlUrl (username name : String) : String :=
  "https://github.com/" ++ username ++ "/" ++ name

/-- The flags `create_repo` is called with: `auto_init=False,
private=False, has_issues=True, has_wiki=False, has_downloads=True`. -/
def newRepoProps : RepoProps :=
  { isPrivate := false, hasIssues := true, hasWiki := false,
    hasDownloads := true, autoInit := false }

/-- `GitHubService.create_repository`, parameterized by the outcome of
the `get_repo` lookup: a found repository's URL is returned as-is
(logged as reuse); the not-found signal (`GithubException` status 404
only) leads to creating a new repository with `newRepoProps`; any other
lookup error propagates. -/
def create_repositoryWith (lookup : Except PyExc String) (s : RepoStore)
    (username name : String) : RepoStore × Except PyExc String :=
  match lookup with
  | .ok url => (s, .ok url)
  | .error e =>
    if e.isNotFound then
      ({ s with created := true, props := newRepoProps }, .ok (htmlUrl username name))
    else (s, .error e)

/-- The honest `get_repo` lookup against the modelled store. -/
def repoLookup (s : RepoStore) (username name : String) : Except PyExc String :=
  if s.created then .ok (htmlUrl username name)
  else .error (.githubException 404 "Not Found")

/-- `GitHubService.create_repository` run against the live store. -/
def create_repository (s : RepoStore) (username name : String) (_description : String) :
    RepoStore × Except PyExc String :=
  create_repositoryWith (repoLookup s username name) s username name

/-- The MIT license text, templated with the account name. -/
def mitLicense (username : String) : String :=
  "MIT License\n\nCopyright (c) 2025 " ++ username ++ "\n\n"
  ++ "Permission is hereby granted, free of charge, to any person obtaining a copy
of this software and associated documentation files (the \"Software\"), to deal
in the Software without restriction, including without limitation the rights
to use, copy, modify, merge, publish, distribute, sublicense, and/or sell
copies of the Software, and to permit persons to whom the Software is
furnished to do so, subject to the following conditions:

The above copyright notice and this permission notice shall be included in all
copies or substantial portions of the Software.

THE SOFTWARE IS PROVIDED \"AS IS\", WITHOUT WARRANTY OF ANY KIND, EXPRESS OR
IMPLIED, INCLUDING BUT NOT LIMITED TO THE WARRANTIES OF MERCHANTABILITY,
FITNESS FOR A PARTICULAR PURPOSE AND NONINFRINGEMENT. IN NO EVENT SHALL THE
AUTHORS OR COPYRIGHT HOLDERS BE LIABLE FOR ANY CLAIM, DAMAGES OR OTHER
LIABILITY, WHETHER IN AN ACTION OF CONTRACT, TORT OR OTHERWISE, ARISING FROM,
OUT OF OR IN CONNECTION WITH THE SOFTWARE OR THE USE OR OTHER DEALINGS IN THE
SOFTWARE.
"

/-- `GitHubService.add_mit_license`: looks up the repository and upserts
the fixed `LICENSE` file with the same found-update / not-found-create
discipline as `push_files`. -/
def add_mit_license (username : String) (s : RepoStore) : RepoStore × Except PyExc Unit :=
  if s.created then pushOneFile s "LICENSE" (mitLicense username)
  else (s, .error (.githubException 404 "Not Found"))

/-- The deterministically constructed public static-site URL. -/
def pagesUrl (username repoName : String) : String :=
  "https://" ++ username ++ ".github.io/" ++ repoName ++ "/"

/-- `GitHubService.enable_github_pages`: looks up the repository, then
tries `create_pages_site`; a platform (`GithubException`) failure of the
create call is absorbed — logged and ignored, whatever its message — and
the deterministically constructed pages URL is returned either way.  A
non-platform error from the create call propagates. -/
def enable_github_pages (pagesCreate : Except PyExc Unit) (username : String)
    (s : RepoStore) (repoName : String) : RepoStore × Except PyExc String :=
  if s.created then
    match pagesCreate with
    | .ok _ => ({ s with pagesEnabled := true }, .ok (pagesUrl username repoName))
    | .error (.githubException _ _) => (s, .ok (pagesUrl username repoName))
    | .error e => (s, .error e)
  else (s, .error (.githubException 404 "Not Found"))

/-- Modelled from the spec: `GitHubService.store_round_data` is called by
the orchestrator (src/app/main.py, step 6) but its definition is absent
from the source tree.  Spec §4.3 `storeRoundRecord(repoName, round,
brief, checks, attachments)`: "persists this round's metadata into the
repository (e.g. as a structured file) so future rounds can read the
full round history"; §3: a Round Record holds round number, brief,
checks and attachment names.  Modelled as appending that record to the
repository-durable round list, after a repository lookup that fails with
the platform's not-found signal when the repository does not exist. -/
def store_round_data (s : RepoStore) (_repoName : String) (roundNum : Int)
    (brief : String) (checks : List String) (attachments : List Attachment) :
    RepoStore × Except PyExc Unit :=
  if s.created then
    ({ s with rounds := s.rounds ++ [⟨roundNum, brief, checks, attachments.map Attachment.name⟩] },
      .ok ())
  else (s, .error (.githubException 404 "Not Found"))

/-- Modelled from the spec: `GitHubService.get_previous_rounds_data` is
called by the orchestrator (src/app/main.py, step 0) but its definition
is absent from the source tree.  Spec §4.3 `fetchRoundRecords(repoName,
uptoRound)`: "reads back everything stored by prior calls to
`storeRoundRecord`, ordered by round"; §4.1 step 1: "fetch all prior
Round Records for this task id (ordered 1..round-1)" and fail when the
repository cannot be read.  Modelled as returning the stored records
with round number below `uptoRound`, in stored order. -/
def get_previous_rounds_data (s : RepoStore) (_repoName : String) (uptoRound : Int) :
    RepoStore × Except PyExc (List RoundRecord) :=
  if s.created then (s, .ok (s.rounds.filter (fun r => r.round < uptoRound)))
  else (s, .error (.githubException 404 "Not Found"))

/-- Modelled from the spec: `GitHubService.get_repo_files` is called by
the orchestrator (src/app/main.py, step 0) but its definition is absent
from the source tree.  Spec §4.3 `fetchAllFiles(repoName)`: "returns
current full repository content as path→content mapping (used as
'current state' context for regeneration)", failing when the repository
cannot be read. -/
def get_repo_files (s : RepoStore) (_repoName : String) :
    RepoStore × Except PyExc (List (String × String)) :=
  if s.created then (s, .ok (s.files.map (fun f => (f.path, f.content))))
  else (s, .error (.githubException 404 "Not Found"))

/- ## Evaluation Notifier (src/app/services/evaluator.py) -/

/-- `EvaluatorService.send_evaluation`: one outbound post attempt per
invocation (the oracle `attempts k` is the outcome of the `k`-th post),
wrapped by `create_retry_decorator(max_attempts=10)`; returns `True` on
a successful delivery. -/
def send_evaluation (attempts : Nat → Except PyExc Unit) :
    Except PyExc Bool × Nat × List Nat :=
  match retryCall attempts 10 with
  | (.ok _, k, ws) => (.ok true, k, ws)
  | (.error e, k, ws) => (.error e, k, ws)

/- ## Round Orchestrator and Request Gateway (src/app/main.py) -/

/-- The configured values the handlers read
(`settings.secret_key`, `settings.github_username`). -/
structure Settings where
  secret_key : String
  github_username : String
deriving DecidableEq

/-- The outcomes of the round's external calls, supplied as oracles: the
parsed generation-backend response, the README backend response, the
`create_pages_site` outcome, and the per-attempt evaluation-post
outcomes. -/
structure Oracles where
  llmApp : Except PyExc (List (String × String))
  llmReadme : Except PyExc String
  pagesCreate : Except PyExc Unit
  evalAttempts : Nat → Except PyExc Unit

/-- What a completed round reports: repository URL, latest commit
identifier, pages URL, and the evaluation record delivered. -/
structure Outcome where
  repo_url : String
  commit_sha : Nat
  pages_url : String
  evaluation : EvaluationResponse
deriving DecidableEq

/-- Sequencing of store-threading steps: a failed step aborts the rest,
keeping the store mutations made so far. -/
def andThen (step : RepoStore × Except PyExc α)
    (k : RepoStore → α → RepoStore × Except PyExc β) : RepoStore × Except PyExc β :=
  match step with
  | (s, .ok a) => k s a
  | (s, .error e) => (s, .error e)

/-- Python dict assignment `files["README.md"] = readme`: update in
place when the key exists, append otherwise. -/
def dictSet (d : List (String × String)) (k v : String) : List (String × String) :=
  if (d.lookup k).isSome then d.map (fun kv => if kv.1 == k then (k, v) else kv)
  else d ++ [(k, v)]

/-- Steps 1–9 of `process_task` after the round-≥2 bootstrap: generate
the file set, generate the README (absorbing backend failure into the
templated fallback), create or address the repository, upsert the
license, push all files, persist the round record, enable pages, wait a
fixed settle delay (`asyncio.sleep(10)`, no observable state change),
and deliver the evaluation record through the retry-wrapped notifier. -/
def process_after_bootstrap (cfg : Settings) (req : TaskRequest) (orc : Oracles)
    (s : RepoStore) (previousRounds : Option (List RoundRecord))
    (repoFiles : Option (List (String × String))) : RepoStore × Except PyExc Outcome :=
  match generate_app req.brief req.attachments req.round previousRounds repoFiles
      (some req.checks) orc.llmApp with
  | .error e => (s, .error e)
  | .ok files0 =>
    let readme := generate_readme req.task req.brief req.round orc.llmReadme
    let files := dictSet files0 "README.md" readme
    let step3 : RepoStore × Except PyExc String :=
      if req.round == 1 then
        create_repository s cfg.github_username req.task
          ("Automated app: " ++ strTake req.brief 100)
      else (s, .ok (htmlUrl cfg.github_username req.task))
    andThen step3 (fun s1 repoUrl =>
    andThen (add_mit_license cfg.github_username s1) (fun s2 _ =>
    andThen (push_files s2 files ("Round " ++ toString req.round ++ ": " ++ strTake req.brief 50))
      (fun s3 sha =>
    andThen (store_round_data s3 req.task req.round req.brief req.checks req.attachments)
      (fun s4 _ =>
    andThen (enable_github_pages orc.pagesCreate cfg.github_username s4 req.task)
      (fun s5 pagesUrlv =>
    match (send_evaluation orc.evalAttempts).1 with
    | .error e => (s5, .error e)
    | .ok _ =>
      (s5, .ok ⟨repoUrl, sha, pagesUrlv,
        ⟨req.email, req.task, req.round, req.nonce, repoUrl, sha, pagesUrlv⟩⟩))))))

/-- `process_task`: for round ≥ 2, first fetch all prior Round Records
and the full current file set (each failing the whole operation when the
repository cannot be read), then run the remaining steps with both in
hand; for round 1 run them with neither. -/
def process_task (cfg : Settings) (req : TaskRequest) (orc : Oracles) (s : RepoStore) :
    RepoStore × Except PyExc Outcome :=
  if req.round ≥ 2 then
    andThen (get_previous_rounds_data s req.task req.round) (fun s1 prev =>
    andThen (get_repo_files s1 req.task) (fun s2 rf =>
    process_after_bootstrap cfg req orc s2 (some prev) (some rf)))
  else process_after_bootstrap cfg req orc s none none

/-- `handle_task` (`POST /task`): a secret mismatch raises
`HTTPException(401, "Invalid secret")` and schedules nothing; otherwise
the request is scheduled as a background task and the "accepted"
acknowledgment echoing task and round is returned at once — the handler
never consults the round's outcome. -/
def handle_task (cfg : Settings) (req : TaskRequest) :
    Except (Nat × String) (TaskResponse × List TaskRequest) :=
  if req.secret ≠ cfg.secret_key then .error (401, "Invalid secret")
  else
    .ok (⟨"accepted",
      "Task " ++ req.task ++ " accepted for processing (Round " ++ toString req.round ++ ")",
      req.task, req.round⟩, [req])

/- ## Claims -/

/-- C5: a Task Request whose secret differs from the configured shared
secret gets a 401 and schedules no background orchestration; a request
with the correct secret gets an immediate "accepted" acknowledgment
echoing task and round, with the request scheduled for background
processing — the handler returns without consulting any round outcome. -/
theorem C5_gateway_secret_and_ack (cfg : Settings) (req : TaskRequest) :
    (req.secret ≠ cfg.secret_key →
      handle_task cfg req = .error (401, "Invalid secret")) ∧
    (req.secret = cfg.secret_key →
      handle_task cfg req =
        .ok (⟨"accepted",
          "Task " ++ req.task ++ " accepted for processing (Round " ++ toString req.round ++ ")",
          req.task, req.round⟩, [req])) := by
  constructor <;> intro h <;> simp [handle_task, h]

/-- C5, witness: both branches at concrete requests. -/
theorem C5_gateway_secret_and_ack_witness :
    handle_task ⟨"s3cret", "octo"⟩
        ⟨"a@b.c", "wrong", "demo", 1, "n1", "counter app", [], "https://eval.test/cb", []⟩
      = .error (401, "Invalid secret") ∧
    handle_task ⟨"s3cret", "octo"⟩
        ⟨"a@b.c", "s3cret", "demo", 1, "n1", "counter app", [], "https://eval.test/cb", []⟩
      = .ok (⟨"accepted", "Task demo accepted for processing (Round 1)", "demo", 1⟩,
          [⟨"a@b.c", "s3cret", "demo", 1, "n1", "counter app", [], "https://eval.test/cb", []⟩]) :=
  ⟨(C5_gateway_secret_and_ack ⟨"s3cret", "octo"⟩ _).1 (by decide),
   (C5_gateway_secret_and_ack ⟨"s3cret", "octo"⟩ _).2 rfl⟩

/-- C3: whenever prompt construction succeeds, `generate_app` applied to
a backend response whose parsed file mapping omits `"index.html"` raises
the fatal validation error (`ValueError("Generated files must include
index.html")`, the spec's `MissingRootPageError`) instead of returning a
file set, at any round number; when the mapping contains the root page
key, the parsed mapping is returned unchanged. -/
theorem C3_missing_root_page (brief : String) (attachments : List Attachment)
    (roundNum : Int) (previousRounds : Option (List RoundRecord))
    (repoFiles : Option (List (String × String))) (checks : Option (List String))
    (files : List (String × String)) (p : String)
    (hp : create_prompt brief attachments roundNum previousRounds repoFiles checks = .ok p) :
    (files.lookup "index.html" = none →
      generate_app brief attachments roundNum previousRounds repoFiles checks (.ok files)
        = .error (.valueError "Generated files must include index.html")) ∧
    ((files.lookup "index.html").isSome →
      generate_app brief attachments roundNum previousRounds repoFiles checks (.ok files)
        = .ok files) := by
  unfold generate_app
  rw [hp]
  constructor <;> intro h <;> simp [h]

/-- C3, witness: a round-3 response without the root page raises; the
same response with it is returned unchanged. -/
theorem C3_missing_root_page_witness :
    generate_app "counter app" [] 3 (some []) (some []) (some ["c"])
        (.ok [("styles.css", "body: red")])
      = .error (.valueError "Generated files must include index.html") ∧
    generate_app "counter app" [] 3 (some []) (some []) (some ["c"])
        (.ok [("index.html", "<h1>0</h1>"), ("styles.css", "body: red")])
      = .ok [("index.html", "<h1>0</h1>"), ("styles.css", "body: red")] :=
  ⟨(C3_missing_root_page "counter app" [] 3 (some []) (some []) (some ["c"])
      [("styles.css", "body: red")] _ rfl).1 rfl,
   (C3_missing_root_page "counter app" [] 3 (some []) (some []) (some ["c"])
      [("index.html", "<h1>0</h1>"), ("styles.css", "body: red")] _ rfl).2 rfl⟩

/-- C7: `create_repository` returns the existing repository's URL
without raising when the lookup finds the name (reuse); when the lookup
signals not-found it creates a public repository with issues enabled,
wiki disabled and downloads enabled; any lookup error other than
not-found propagates. -/
theorem C7_ensure_repository (s : RepoStore) (username name description url m : String)
    (e : PyExc) :
    (create_repositoryWith (.ok url) s username name = (s, .ok url)) ∧
    (s.created = true →
      create_repository s username name description = (s, .ok (htmlUrl username name))) ∧
    (create_repositoryWith (.error (.githubException 404 m)) s username name
        = ({ s with created := true, props := newRepoProps }, .ok (htmlUrl username name))) ∧
    (newRepoProps.isPrivate = false ∧ newRepoProps.hasIssues = true ∧
      newRepoProps.hasWiki = false ∧ newRepoProps.hasDownloads = true) ∧
    (e.isNotFound = false →
      create_repositoryWith (.error e) s username name = (s, .error e)) := by
  refine ⟨rfl, ?_, rfl, ⟨rfl, rfl, rfl, rfl⟩, ?_⟩
  · intro h
    simp [create_repository, repoLookup, h, create_repositoryWith]
  · intro h
    simp [create_repositoryWith, h]

/-- C7, witness: reuse of an existing repository, creation after a
not-found lookup, and propagation of a non-not-found lookup error, at
concrete stores. -/
theorem C7_ensure_repository_witness :
    create_repository ⟨true, newRepoProps, [], [], 0, false⟩ "octo" "demo" "Automated app: x"
      = (⟨true, newRepoProps, [], [], 0, false⟩, .ok "https://github.com/octo/demo") ∧
    create_repositoryWith (.error (.githubException 403 "rate limited"))
        ⟨false, newRepoProps, [], [], 0, false⟩ "octo" "demo"
      = (⟨false, newRepoProps, [], [], 0, false⟩,
          .error (.githubException 403 "rate limited")) :=
  ⟨(C7_ensure_repository ⟨true, newRepoProps, [], [], 0, false⟩ "octo" "demo"
      "Automated app: x" "u" "m" (.httpError "x")).2.1 rfl,
   (C7_ensure_repository ⟨false, newRepoProps, [], [], 0, false⟩ "octo" "demo" "d" "u" "m"
      (.githubException 403 "rate limited")).2.2.2.2 rfl⟩

/-- C10: a non-empty attachment list makes `generate_app` raise
`TypeError` while serializing the pydantic `Attachment` objects during
prompt construction, whatever the round and the backend would have
returned; the orchestrator then aborts with the store untouched, before
any generation or publication.  With an empty attachment list prompt
construction succeeds, so only such requests reach the generation
backend. -/
theorem C10_attachments_break_prompt :
    (∀ (brief : String) (a : Attachment) (rest : List Attachment) (roundNum : Int)
        (prev : Option (List RoundRecord)) (rf : Option (List (String × String)))
        (checks : Option (List String)) (backend : Except PyExc (List (String × String))),
      generate_app brief (a :: rest) roundNum prev rf checks backend
        = .error (.typeError "Object of type Attachment is not JSON serializable")) ∧
    (∀ (cfg : Settings) (req : TaskRequest) (orc : Oracles) (s : RepoStore)
        (prev : Option (List RoundRecord)) (rf : Option (List (String × String)))
        (a : Attachment) (rest : List Attachment),
      req.attachments = a :: rest →
      process_after_bootstrap cfg req orc s prev rf
        = (s, .error (.typeError "Object of type Attachment is not JSON serializable"))) ∧
    (∀ (brief : String) (roundNum : Int) (prev : Option (List RoundRecord))
        (rf : Option (List (String × String))) (checks : Option (List String)),
      ∃ p, create_prompt brief [] roundNum prev rf checks = .ok p) := by
  refine ⟨?_, ?_, ?_⟩
  · intro brief a rest roundNum prev rf checks backend
    simp [generate_app, create_prompt, attachmentInfoBlock, jsonDumpsAttachments]
  · intro cfg req orc s prev rf a rest h
    simp [process_after_bootstrap, generate_app, create_prompt, h,
      attachmentInfoBlock, jsonDumpsAttachments]
  · intro brief roundNum prev rf checks
    by_cases h : roundNum == 1 <;>
      simp [create_prompt, attachmentInfoBlock, h]

/-- C10, witness: a concrete one-attachment request aborts the round
with a `TypeError` and an unchanged store; the same request without
attachments builds its prompt. -/
theorem C10_attachments_break_prompt_witness :
    process_after_bootstrap ⟨"s3cret", "octo"⟩
        ⟨"a@b.c", "s3cret", "demo", 1, "n1", "counter app", [],
          "https://eval.test/cb", [⟨"data.csv", "data:text/csv;base64,QQ=="⟩]⟩
        ⟨.ok [("index.html", "x")], .ok "r", .ok (), fun _ => .ok ()⟩
        ⟨false, newRepoProps, [], [], 0, false⟩ none none
      = (⟨false, newRepoProps, [], [], 0, false⟩,
          .error (.typeError "Object of type Attachment is not JSON serializable")) ∧
    ∃ p, create_prompt "counter app" [] 1 none none none = .ok p :=
  ⟨C10_attachments_break_prompt.2.1 ⟨"s3cret", "octo"⟩ _ _ _ none none
      ⟨"data.csv", "data:text/csv;base64,QQ=="⟩ [] rfl,
   C10_attachments_break_prompt.2.2 "counter app" 1 none none none⟩

/-- C6, counterexample to the claim as stated: an operation failing with
a transport error on every attempt exhausts the 10 default attempts, and
the wrapped call then raises tenacity's `RetryError` wrapping the last
error — not the last error itself, because `create_retry_decorator`
leaves `reraise` at its default `False`. -/
theorem C6_retry_reraise_counterexample :
    (retryCall (fun _ => Except.error (PyExc.httpError "boom") : Nat → Except PyExc Nat) 10).1
      = Except.error (PyExc.retryError (PyExc.httpError "boom")) ∧
    (retryCall (fun _ => Except.error (PyExc.httpError "boom") : Nat → Except PyExc Nat) 10).1
      ≠ Except.error (PyExc.httpError "boom") := by
  refine ⟨rfl, ?_⟩
  intro h
  rw [(rfl : (retryCall (fun _ => Except.error (PyExc.httpError "boom") : Nat → Except PyExc Nat) 10).1
      = Except.error (PyExc.retryError (PyExc.httpError "boom")))] at h
  exact absurd (Except.error.inj h) (by decide)

/-- C6, amended: an operation failing with a retryable transport error
exactly 3 times and then succeeding returns the success value after
exactly 4 invocations, with inter-attempt delays 1, 2, 4 seconds;
delays start at 1 second, double each attempt and are capped at 60
seconds; a non-retryable error is raised at once after a single
invocation; and exhausting the (default 10) attempts raises tenacity's
`RetryError` wrapping the last error, after exactly 10 invocations. -/
theorem C6_retry_policy (α : Type) :
    (∀ (op : Nat → Except PyExc α) (e1 e2 e3 : PyExc) (v : α),
      op 1 = .error e1 → isRetryableExc e1 = true →
      op 2 = .error e2 → isRetryableExc e2 = true →
      op 3 = .error e3 → isRetryableExc e3 = true →
      op 4 = .ok v →
      retryCall op 10 = (.ok v, 4, [1, 2, 4])) ∧
    (waitExponential 1 = 1) ∧
    (∀ n, 1 ≤ n → waitExponential (n + 1) = min (2 * waitExponential n) 60) ∧
    (∀ (op : Nat → Except PyExc α) (e : PyExc) (m : Nat),
      op 1 = .error e → isRetryableExc e = false →
      retryCall op m = (.error e, 1, [])) ∧
    (∀ (op : Nat → Except PyExc α) (err : Nat → PyExc),
      (∀ k, op k = .error (err k)) → (∀ k, isRetryableExc (err k) = true) →
      retryCall op 10
        = (.error (.retryError (err 10)), 10, [1, 2, 4, 8, 16, 32, 60, 60, 60])) := by
  refine ⟨?_, rfl, ?_, ?_, ?_⟩
  · intro op e1 e2 e3 v h1 r1 h2 r2 h3 r3 h4
    simp [retryCall, retryLoop, h1, r1, h2, r2, h3, r3, h4, waitExponential]
  · intro n hn
    have h2n : 2 ^ (n + 1 - 1) = 2 * 2 ^ (n - 1) := by
      rw [Nat.add_sub_cancel]
      conv_lhs => rw [← Nat.sub_add_cancel hn]
      rw [Nat.pow_succ, Nat.mul_comm]
    have hpow : 1 ≤ 2 ^ (n - 1) := Nat.one_le_two_pow
    simp only [waitExponential, h2n]
    omega
  · intro op e m h1 r1
    cases m <;> simp [retryCall, retryLoop, h1, r1]
  · intro op err hop hr
    simp [retryCall, retryLoop, hop, hr, waitExponential]

/-- C6, witness: the amended clauses at a concrete operation failing
three times then succeeding, a concrete non-retryable failure, and a
concrete always-failing operation. -/
theorem C6_retry_policy_witness :
    retryCall (fun n => if n ≤ 3 then Except.error (PyExc.httpError "t") else Except.ok 7) 10
      = (Except.ok 7, 4, [1, 2, 4]) ∧
    waitExponential 2 = min (2 * waitExponential 1) 60 ∧
    retryCall (fun _ => Except.error (PyExc.valueError "bad") : Nat → Except PyExc Nat) 10
      = (Except.error (PyExc.valueError "bad"), 1, []) ∧
    retryCall (fun _ => Except.error (PyExc.connectionError "down") : Nat → Except PyExc Nat) 10
      = (Except.error (PyExc.retryError (PyExc.connectionError "down")), 10,
          [1, 2, 4, 8, 16, 32, 60, 60, 60]) :=
  ⟨(C6_retry_policy Nat).1 _ _ _ _ 7 rfl rfl rfl rfl rfl rfl rfl,
   (C6_retry_policy Nat).2.2.1 1 (by decide),
   (C6_retry_policy Nat).2.2.2.1 _ _ 10 rfl rfl,
   (C6_retry_policy Nat).2.2.2.2 _ (fun _ => PyExc.connectionError "down")
      (fun _ => rfl) (fun _ => rfl)⟩

/- ## Upsert lemmas for the per-file push -/

/-- The in-place replacement inside `updateFileOp` keeps every file's
path. -/
theorem replaceFile_path (path c : String) (n : Nat) (x : GhFile) :
    (if x.path == path then GhFile.mk path c n else x).path = x.path := by
  by_cases h : x.path = path <;> simp [h]

/-- Replacing the file at `path` does not change the path list. -/
theorem map_path_replace (path c : String) (n : Nat) (l : List GhFile) :
    ((l.map (fun g => if g.path == path then GhFile.mk path c n else g)).map GhFile.path)
      = l.map GhFile.path := by
  induction l with
  | nil => rfl
  | cons x xs ih =>
    simp only [List.map_cons, ih]
    by_cases h : x.path = path
    · simp [h]
    · simp [h]

/-- When no file of `l` is at `path`, the replacement map leaves nothing
for the `path` filter to keep. -/
theorem filter_replace_of_forall_ne (path c : String) (n : Nat) (l : List GhFile)
    (h : ∀ f ∈ l, f.path ≠ path) :
    ((l.map (fun g => if g.path == path then GhFile.mk path c n else g)).filter
        (fun f => f.path == path)) = [] := by
  induction l with
  | nil => rfl
  | cons x xs ih =>
    have hx : x.path ≠ path := h x (by simp)
    have hhead : (if x.path == path then GhFile.mk path c n else x) = x := by simp [hx]
    simp only [List.map_cons]
    rw [hhead, List.filter_cons, if_neg (by simp [hx])]
    exact ih (fun f hf => h f (List.mem_cons_of_mem x hf))

/-- When `l` has pairwise-distinct paths and some file sits at `path`,
replacing it leaves exactly one file at `path`, holding the new content. -/
theorem filter_replace_of_mem (path c : String) (n : Nat) (l : List GhFile)
    (hnd : (l.map GhFile.path).Nodup) (hx : ∃ f ∈ l, f.path = path) :
    (((l.map (fun g => if g.path == path then GhFile.mk path c n else g)).filter
        (fun f => f.path == path)).map GhFile.content) = [c] := by
  induction l with
  | nil => simp at hx
  | cons x xs ih =>
    simp only [List.map_cons, List.nodup_cons] at hnd
    by_cases hxp : x.path = path
    · have htail : ∀ f ∈ xs, f.path ≠ path := by
        intro f hf hfp
        have hmm : f.path ∈ List.map GhFile.path xs := List.mem_map_of_mem GhFile.path hf
        rw [hfp, ← hxp] at hmm
        exact hnd.1 hmm
      have hhead : (if x.path == path then GhFile.mk path c n else x)
          = GhFile.mk path c n := by simp [hxp]
      simp only [List.map_cons]
      rw [hhead, List.filter_cons, if_pos (by simp),
        filter_replace_of_forall_ne path c n xs htail]
      rfl
    · rcases hx with ⟨f, hf, hfp⟩
      rcases List.mem_cons.mp hf with rfl | hfxs
      · exact absurd hfp hxp
      · have hhead : (if x.path == path then GhFile.mk path c n else x) = x := by simp [hxp]
        simp only [List.map_cons]
        rw [hhead, List.filter_cons, if_neg (by simp [hxp])]
        exact ih hnd.2 ⟨f, hfxs, hfp⟩

/-- When no file of `l` is at `path`, appending a fresh file at `path`
leaves exactly one file at `path`, holding the new content. -/
theorem filter_append_of_absent (path c : String) (n : Nat) (l : List GhFile)
    (h : ∀ f ∈ l, f.path ≠ path) :
    (((l ++ [GhFile.mk path c n]).filter (fun f => f.path == path)).map GhFile.content)
      = [c] := by
  rw [List.filter_append]
  have hl : l.filter (fun f => f.path == path) = [] := by
    rw [List.filter_eq_nil_iff]
    intro f hf
    simp [h f hf]
  simp [hl]

/-- `find? = none` means no element satisfies the predicate. -/
theorem find?_none_forall (l : List GhFile) (path : String)
    (h : l.find? (fun f => f.path == path) = none) :
    ∀ f ∈ l, f.path ≠ path := by
  intro f hf hfp
  have := List.find?_eq_none.mp h f hf
  simp [hfp] at this

/-- The per-file upsert of `push_files` always succeeds against the live
store, leaves exactly one file at the path (holding the pushed content),
adds exactly one commit, and preserves path distinctness. -/
theorem pushOneFile_spec (s : RepoStore) (path c : String)
    (hnd : (s.files.map GhFile.path).Nodup) :
    ∃ s1, pushOneFile s path c = (s1, .ok ()) ∧
      ((s1.files.filter (fun f => f.path == path)).map GhFile.content) = [c] ∧
      s1.commits = s.commits + 1 ∧
      ((s1.files.map GhFile.path).Nodup) := by
  cases hfind : s.files.find? (fun f => f.path == path) with
  | none =>
    have habs := find?_none_forall s.files path hfind
    refine ⟨{ s with
        files := s.files ++ [GhFile.mk path c (s.commits + 1)],
        commits := s.commits + 1 }, ?_, ?_, rfl, ?_⟩
    · simp [pushOneFile, pushOneFileWith, getContents, hfind, PyExc.isNotFound,
        createFileOp]
    · exact filter_append_of_absent path c (s.commits + 1) s.files habs
    · simp only [List.map_append, List.map_cons, List.map_nil]
      rw [List.nodup_append]
      refine ⟨hnd, List.nodup_singleton _, ?_⟩
      intro a ha hb
      simp only [List.mem_singleton] at hb
      rcases List.mem_map.mp ha with ⟨f, hf, rfl⟩
      exact habs f hf hb
  | some f =>
    have hsha : (f.sha == f.sha) = true := by simp
    have hmem : ∃ g ∈ s.files, g.path = path := by
      refine ⟨f, List.mem_of_find?_eq_some hfind, ?_⟩
      have := List.find?_some hfind
      simpa using this
    refine ⟨{ s with
        files := s.files.map (fun g => if g.path == path then GhFile.mk path c (s.commits + 1) else g),
        commits := s.commits + 1 }, ?_, ?_, rfl, ?_⟩
    · simp [pushOneFile, pushOneFileWith, getContents, hfind, updateFileOp, hsha]
    · exact filter_replace_of_mem path c (s.commits + 1) s.files hnd hmem
    · rw [map_path_replace]
      exact hnd

/-- C4: on a store with distinct paths, upserting the same path twice
with different contents succeeds both times and leaves exactly one file
at that path holding the latest content, adding one commit per call;
moreover the upsert updates via the existing file's content-hash token
when the path is present, creates when it is absent, and propagates any
non-not-found lookup error unchanged. -/
theorem C4_upsert_file (s : RepoStore) (path c1 c2 : String)
    (hnd : (s.files.map GhFile.path).Nodup) :
    (∃ s1 s2, pushOneFile s path c1 = (s1, .ok ()) ∧
      pushOneFile s1 path c2 = (s2, .ok ()) ∧
      ((s2.files.filter (fun f => f.path == path)).map GhFile.content) = [c2] ∧
      s2.commits = s.commits + 2 ∧
      ((s2.files.map GhFile.path).Nodup)) ∧
    (∀ f c, s.files.find? (fun g => g.path == path) = some f →
      pushOneFile s path c = updateFileOp s path c f.sha) ∧
    (s.files.find? (fun g => g.path == path) = none →
      ∀ c, pushOneFile s path c = createFileOp s path c) ∧
    (∀ (e : PyExc) c, e.isNotFound = false →
      pushOneFileWith (.error e) s path c = (s, .error e)) := by
  refine ⟨?_, ?_, ?_, ?_⟩
  · obtain ⟨s1, h1, _, hc1, hnd1⟩ := pushOneFile_spec s path c1 hnd
    obtain ⟨s2, h2, hfil2, hc2, hnd2⟩ := pushOneFile_spec s1 path c2 hnd1
    exact ⟨s1, s2, h1, h2, hfil2, by omega, hnd2⟩
  · intro f c hfind
    simp [pushOneFile, pushOneFileWith, getContents, hfind]
  · intro hfind c
    simp [pushOneFile, pushOneFileWith, getContents, hfind, PyExc.isNotFound]
  · intro e c he
    simp [pushOneFileWith, he]

/-- C4, witness: upserting `index.html` twice on a store that already
holds it updates in place — one file at that path, latest content, two
commits — and a concrete non-not-found lookup error propagates. -/
theorem C4_upsert_file_witness :
    (∃ s1 s2,
      pushOneFile ⟨true, newRepoProps, [⟨"index.html", "old", 2⟩], [], 2, false⟩
          "index.html" "v1" = (s1, .ok ()) ∧
      pushOneFile s1 "index.html" "v2" = (s2, .ok ()) ∧
      ((s2.files.filter (fun f => f.path == "index.html")).map GhFile.content) = ["v2"] ∧
      s2.commits = 4 ∧
      ((s2.files.map GhFile.path).Nodup)) ∧
    pushOneFileWith (.error (.githubException 500 "server error"))
        ⟨true, newRepoProps, [⟨"index.html", "old", 2⟩], [], 2, false⟩
        "index.html" "v1"
      = (⟨true, newRepoProps, [⟨"index.html", "old", 2⟩], [], 2, false⟩,
          .error (.githubException 500 "server error")) :=
  ⟨(C4_upsert_file ⟨true, newRepoProps, [⟨"index.html", "old", 2⟩], [], 2, false⟩
      "index.html" "v1" "v2" (by simp)).1,
   (C4_upsert_file ⟨true, newRepoProps, [⟨"index.html", "old", 2⟩], [], 2, false⟩
      "index.html" "v1" "v2" (by simp)).2.2.2 (.githubException 500 "server error") "v1" rfl⟩

/- ## Substring lemmas for the round-≥2 prompt -/

theorem strContains_trans {s t u : String} (h1 : strContains s t)
    (h2 : strContains t u) : strContains s u := by
  obtain ⟨a, b, hab⟩ := h1
  obtain ⟨c, d, hcd⟩ := h2
  exact ⟨a ++ c, d ++ b, by rw [hab, hcd]; simp⟩

/-- Every check of the list appears in its rendered check lines. -/
theorem strContains_prevChecksLines (cs : List String) (c : String) (h : c ∈ cs) :
    strContains (prevChecksLines cs) c := by
  induction cs with
  | nil => cases h
  | cons x xs ih =>
    rcases List.mem_cons.mp h with rfl | hxs
    · exact strContains_appendL _ (strContains_appendL _
        (strContains_appendR _ (strContains_self c)))
    · exact strContains_appendR _ (ih hxs)

/-- Every check of a round record appears in its history block. -/
theorem strContains_roundHistoryBlock (r : RoundRecord) (ch : String)
    (h : ch ∈ r.checks) : strContains (roundHistoryBlock r) ch := by
  unfold roundHistoryBlock
  cases hc : r.checks with
  | nil => rw [hc] at h; cases h
  | cons c cs =>
    rw [hc] at h
    exact strContains_appendL _ (strContains_appendR _ (strContains_appendR _
      (strContains_prevChecksLines (c :: cs) ch h)))

/-- Every check of every listed round appears in the history section. -/
theorem strContains_historyBlocks (prs : List RoundRecord) (r : RoundRecord)
    (ch : String) (hr : r ∈ prs) (h : ch ∈ r.checks) :
    strContains (historyBlocks prs) ch := by
  induction prs with
  | nil => cases hr
  | cons x xs ih =>
    rcases List.mem_cons.mp hr with rfl | hxs
    · exact strContains_appendL _ (strContains_roundHistoryBlock r ch h)
    · exact strContains_appendR _ (ih hxs)

/-- Every listed file's displayed content appears in the repository-code
section. -/
theorem strContains_filesSection (fs : List (String × String)) (fp c : String)
    (h : (fp, c) ∈ fs) : strContains (filesSection fs) (displayContent c) := by
  induction fs with
  | nil => cases h
  | cons x xs ih =>
    obtain ⟨a, b⟩ := x
    rcases List.mem_cons.mp h with heq | hxs
    · cases heq
      exact strContains_appendL _ (strContains_appendL _
        (strContains_appendR _ (strContains_self _)))
    · exact strContains_appendR _ (ih hxs)

/-- Every current file's displayed content appears in the round-≥2
prompt. -/
theorem strContains_round2Prompt_file (brief ci ai : String)
    (prs : List RoundRecord) (fs : List (String × String)) (fp c : String)
    (h : (fp, c) ∈ fs) :
    strContains (round2Prompt brief ci ai (some prs) (some fs)) (displayContent c) := by
  cases fs with
  | nil => cases h
  | cons f rest =>
    exact strContains_appendL _ (strContains_appendR _ (strContains_appendL _
      (strContains_appendR _ (strContains_filesSection (f :: rest) fp c h))))

/-- Every prior round's check appears in the round-≥2 prompt. -/
theorem strContains_round2Prompt_check (brief ci ai : String)
    (prs : List RoundRecord) (fs : List (String × String)) (r : RoundRecord)
    (ch : String) (hr : r ∈ prs) (h : ch ∈ r.checks) :
    strContains (round2Prompt brief ci ai (some prs) (some fs)) ch := by
  cases prs with
  | nil => cases hr
  | cons r0 rs =>
    exact strContains_appendL _ (strContains_appendL _ (strContains_appendR _
      (strContains_appendL _ (strContains_appendR _
        (strContains_historyBlocks (r0 :: rs) r ch hr h)))))

/-- C8: whenever a round-≥2 prompt is produced from prior Round Records
and a current file set, it contains every file's content — truncated,
with the `... (truncated)` marker, exactly for contents of length at or
over the 5000-character threshold — and every prior round's checks, each
as a substring. -/
theorem C8_round2_prompt_completeness (brief : String) (attachments : List Attachment)
    (roundNum : Int) (prs : List RoundRecord) (fs : List (String × String))
    (checks : Option (List String)) (p : String)
    (hr : 2 ≤ roundNum)
    (hp : create_prompt brief attachments roundNum (some prs) (some fs) checks = .ok p) :
    (∀ fp c, (fp, c) ∈ fs → strContains p (displayContent c) ∧
        (c.length < 5000 → displayContent c = c) ∧
        (5000 ≤ c.length →
          displayContent c = strTake c 5000 ++ "\n... (truncated)")) ∧
    (∀ r, r ∈ prs → ∀ ch, ch ∈ r.checks → strContains p ch) := by
  have hne : (roundNum == 1) = false := by
    simp only [beq_eq_false_iff_ne, ne_eq]
    omega
  cases hA : attachmentInfoBlock attachments with
  | error e => simp [create_prompt, hA] at hp
  | ok ai =>
    simp only [create_prompt, hA, hne, Bool.false_eq_true, if_false] at hp
    injection hp with hp
    subst hp
    constructor
    · intro fp c hm
      refine ⟨strContains_round2Prompt_file brief (checksInfoBlock checks) ai prs fs fp c hm,
        ?_, ?_⟩
      · intro hlen
        simp [displayContent, hlen]
      · intro hlen
        simp [displayContent, Nat.not_lt.mpr hlen]
    · intro r hrm ch hch
      exact strContains_round2Prompt_check brief (checksInfoBlock checks) ai prs fs r ch hrm hch

/-- C8, witness: a concrete round-2 prompt built from one prior Round
Record and one current file contains that file's content and the prior
check. -/
theorem C8_round2_prompt_completeness_witness :
    strContains
      (round2Prompt "add a reset button" (checksInfoBlock (some ["check2"])) ""
        (some [⟨1, "counter app", ["check-one"], []⟩])
        (some [("index.html", "<h1>hi</h1>")]))
      (displayContent "<h1>hi</h1>") ∧
    strContains
      (round2Prompt "add a reset button" (checksInfoBlock (some ["check2"])) ""
        (some [⟨1, "counter app", ["check-one"], []⟩])
        (some [("index.html", "<h1>hi</h1>")]))
      "check-one" :=
  ⟨((C8_round2_prompt_completeness "add a reset button" [] 2
      [⟨1, "counter app", ["check-one"], []⟩] [("index.html", "<h1>hi</h1>")]
      (some ["check2"]) _ (by decide) rfl).1 "index.html" "<h1>hi</h1>" (by simp)).1,
   (C8_round2_prompt_completeness "add a reset button" [] 2
      [⟨1, "counter app", ["check-one"], []⟩] [("index.html", "<h1>hi</h1>")]
      (some ["check2"]) _ (by decide) rfl).2 ⟨1, "counter app", ["check-one"], []⟩
      (by simp) "check-one" (by simp)⟩

/- ## Effect lemmas for the orchestrator's publish steps -/

theorem updateFileOp_effects (s : RepoStore) (p c : String) (sha : Nat) :
    (updateFileOp s p c sha).1.rounds = s.rounds ∧
    (updateFileOp s p c sha).1.created = s.created := by
  unfold updateFileOp
  split
  · exact ⟨rfl, rfl⟩
  · split
    · exact ⟨rfl, rfl⟩
    · exact ⟨rfl, rfl⟩

theorem createFileOp_effects (s : RepoStore) (p c : String) :
    (createFileOp s p c).1.rounds = s.rounds ∧
    (createFileOp s p c).1.created = s.created := by
  unfold createFileOp
  split
  · exact ⟨rfl, rfl⟩
  · exact ⟨rfl, rfl⟩

theorem pushOneFile_effects (s : RepoStore) (p c : String) :
    (pushOneFile s p c).1.rounds = s.rounds ∧
    (pushOneFile s p c).1.created = s.created := by
  unfold pushOneFile pushOneFileWith
  split
  · exact updateFileOp_effects s p c _
  · split
    · exact createFileOp_effects s p c
    · exact ⟨rfl, rfl⟩

theorem pushFilesLoop_effects (files : List (String × String)) (s : RepoStore) :
    (pushFilesLoop s files).1.rounds = s.rounds ∧
    (pushFilesLoop s files).1.created = s.created := by
  induction files generalizing s with
  | nil => exact ⟨rfl, rfl⟩
  | cons x xs ih =>
    obtain ⟨p, c⟩ := x
    unfold pushFilesLoop
    cases hpc : pushOneFile s p c with
    | mk s1 r =>
      have heff := pushOneFile_effects s p c
      rw [hpc] at heff
      cases r with
      | ok u =>
        have ht := ih s1
        exact ⟨ht.1.trans heff.1, ht.2.trans heff.2⟩
      | error e => exact heff

theorem push_files_effects (s : RepoStore) (files : List (String × String)) (m : String) :
    (push_files s files m).1.rounds = s.rounds ∧
    (push_files s files m).1.created = s.created := by
  unfold push_files
  by_cases hc : s.created
  · simp only [hc, if_true]
    cases hl : pushFilesLoop s files with
    | mk s1 r =>
      have heff := pushFilesLoop_effects files s
      rw [hl] at heff
      have h1 : s1.rounds = s.rounds := by simpa using heff.1
      have h2 : s1.created = s.created := by simpa using heff.2
      cases r with
      | ok u =>
        by_cases hz : (s1.commits == 0) = true <;> simp [hz, h1, h2, hc]
      | error e => simp [h1, h2, hc]
  · simp only [Bool.not_eq_true] at hc
    simp [hc]

theorem create_repository_effects (s : RepoStore) (u n d : String) :
    (create_repository s u n d).1.rounds = s.rounds ∧
    (create_repository s u n d).1.created = true := by
  unfold create_repository create_repositoryWith repoLookup
  by_cases h : s.created <;> simp [h, PyExc.isNotFound]

theorem add_mit_license_effects (u : String) (s : RepoStore) :
    (add_mit_license u s).1.rounds = s.rounds ∧
    (add_mit_license u s).1.created = s.created := by
  unfold add_mit_license
  split
  · exact pushOneFile_effects s "LICENSE" (mitLicense u)
  · exact ⟨rfl, rfl⟩

theorem store_round_data_success (s s' : RepoStore) (rn : Int) (brief : String)
    (checks : List String) (atts : List Attachment) (name : String)
    (h : store_round_data s name rn brief checks atts = (s', .ok ())) :
    s'.rounds = s.rounds ++ [⟨rn, brief, checks, atts.map Attachment.name⟩] ∧
    s'.created = s.created := by
  unfold store_round_data at h
  split at h
  · have hs := (Prod.mk.injEq _ _ _ _).mp h
    rw [← hs.1]
    exact ⟨rfl, rfl⟩
  · simp at h

theorem enable_github_pages_effects (pc : Except PyExc Unit) (u : String)
    (s : RepoStore) (r : String) :
    (enable_github_pages pc u s r).1.rounds = s.rounds ∧
    (enable_github_pages pc u s r).1.created = s.created := by
  unfold enable_github_pages
  split
  · split
    · exact ⟨rfl, rfl⟩
    · exact ⟨rfl, rfl⟩
    · exact ⟨rfl, rfl⟩
  · exact ⟨rfl, rfl⟩

/-- A successful `generate_app` call means the backend returned exactly
the delivered mapping and that mapping contains the root page. -/
theorem generate_app_ok_inv (brief : String) (attachments : List Attachment)
    (roundNum : Int) (prev : Option (List RoundRecord))
    (rf : Option (List (String × String))) (checks : Option (List String))
    (backend : Except PyExc (List (String × String))) (files : List (String × String))
    (h : generate_app brief attachments roundNum prev rf checks backend = .ok files) :
    backend = .ok files ∧ (files.lookup "index.html").isSome = true := by
  unfold generate_app at h
  cases hA : create_prompt brief attachments roundNum prev rf checks with
  | error e => rw [hA] at h; exact absurd h (by simp)
  | ok p =>
    rw [hA] at h
    cases backend with
    | error e => exact absurd h (by simp)
    | ok fs =>
      by_cases hl : (fs.lookup "index.html").isSome
      · simp [hl] at h
        subst h
        exact ⟨rfl, hl⟩
      · simp [hl] at h

/-- A pages-enablement call that returns a URL saw either a successful
pages-create or a platform (`GithubException`) error — never any other
failure. -/
theorem enable_github_pages_ok_inv (pc : Except PyExc Unit) (u : String)
    (s : RepoStore) (r : String) (s' : RepoStore) (url : String)
    (h : enable_github_pages pc u s r = (s', .ok url)) :
    pc = .ok () ∨ ∃ st m, pc = .error (.githubException st m) := by
  unfold enable_github_pages at h
  by_cases hc : s.created
  · simp only [hc, if_true] at h
    cases pc with
    | ok v => cases v; exact Or.inl rfl
    | error e =>
      cases e with
      | githubException st m => exact Or.inr ⟨st, m, rfl⟩
      | httpError m => simp at h
      | connectionError m => simp at h
      | valueError m => simp at h
      | typeError m => simp at h
      | retryError e2 => simp at h
  · simp only [Bool.not_eq_true] at hc
    simp [hc] at h

/-- A successful notifier call means the retry-wrapped delivery itself
succeeded. -/
theorem send_evaluation_ok_inv (a : Nat → Except PyExc Unit) (b : Bool)
    (h : (send_evaluation a).1 = .ok b) :
    ∃ k ws, retryCall a 10 = (.ok (), k, ws) := by
  unfold send_evaluation at h
  rcases hr : retryCall a 10 with ⟨r, k, ws⟩
  rw [hr] at h
  cases r with
  | ok v => cases v; exact ⟨k, ws, rfl⟩
  | error e => simp at h

/-- A successful run of the post-bootstrap pipeline appends exactly this
round's Round Record — round number, brief, checks, attachment names —
to the repository-durable round list and leaves the repository created;
moreover success requires all non-absorbed external calls to have
succeeded: the generation backend returned a root-page-bearing mapping,
the pages-create call either succeeded or failed with a platform
(`GithubException`) error, and the retry-wrapped evaluation delivery
succeeded. -/
theorem process_after_bootstrap_success (cfg : Settings) (req : TaskRequest)
    (orc : Oracles) (s s' : RepoStore) (out : Outcome)
    (prev : Option (List RoundRecord)) (rf : Option (List (String × String)))
    (h : process_after_bootstrap cfg req orc s prev rf = (s', .ok out)) :
    (s'.rounds = s.rounds
      ++ [⟨req.round, req.brief, req.checks, req.attachments.map Attachment.name⟩] ∧
    s'.created = true) ∧
    (∃ files, orc.llmApp = .ok files ∧ (files.lookup "index.html").isSome = true) ∧
    (orc.pagesCreate = .ok () ∨ ∃ st m, orc.pagesCreate = .error (.githubException st m)) ∧
    (∃ k ws, retryCall orc.evalAttempts 10 = (.ok (), k, ws)) := by
  unfold process_after_bootstrap at h
  cases hg : generate_app req.brief req.attachments req.round prev rf
      (some req.checks) orc.llmApp with
  | error e => rw [hg] at h; simp at h
  | ok files0 =>
    rw [hg] at h
    simp only [andThen] at h
    cases hs3 : (if req.round == 1 then
        create_repository s cfg.github_username req.task
          ("Automated app: " ++ strTake req.brief 100)
      else (s, Except.ok (htmlUrl cfg.github_username req.task))) with
    | mk s1 r1 =>
      have h13 : s1.rounds = s.rounds := by
        by_cases hr1 : req.round == 1
        · rw [if_pos hr1] at hs3
          have := (create_repository_effects s cfg.github_username req.task
            ("Automated app: " ++ strTake req.brief 100)).1
          rw [hs3] at this
          exact this
        · rw [if_neg hr1] at hs3
          have := (Prod.mk.injEq _ _ _ _).mp hs3
          rw [← this.1]
      rw [hs3] at h
      cases r1 with
      | error e => simp at h
      | ok repoUrl =>
        simp only at h
        cases hlic : add_mit_license cfg.github_username s1 with
        | mk s2 r2 =>
          have h2eff := add_mit_license_effects cfg.github_username s1
          rw [hlic] at h2eff
          rw [hlic] at h
          cases r2 with
          | error e => simp at h
          | ok u2 =>
            simp only at h
            cases hpush : push_files s2
                (dictSet files0 "README.md"
                  (generate_readme req.task req.brief req.round orc.llmReadme))
                ("Round " ++ toString req.round ++ ": " ++ strTake req.brief 50) with
            | mk s3 r3 =>
              have h3eff := push_files_effects s2
                (dictSet files0 "README.md"
                  (generate_readme req.task req.brief req.round orc.llmReadme))
                ("Round " ++ toString req.round ++ ": " ++ strTake req.brief 50)
              rw [hpush] at h3eff
              rw [hpush] at h
              cases r3 with
              | error e => simp at h
              | ok sha =>
                simp only at h
                cases hst : store_round_data s3 req.task req.round req.brief
                    req.checks req.attachments with
                | mk s4 r4 =>
                  rw [hst] at h
                  cases r4 with
                  | error e => simp at h
                  | ok u4 =>
                    simp only at h
                    have h4 := store_round_data_success s3 s4 req.round req.brief
                      req.checks req.attachments req.task (by rw [hst])
                    cases hpg : enable_github_pages orc.pagesCreate
                        cfg.github_username s4 req.task with
                    | mk s5 r5 =>
                      have h5eff := enable_github_pages_effects orc.pagesCreate
                        cfg.github_username s4 req.task
                      rw [hpg] at h5eff
                      rw [hpg] at h
                      cases r5 with
                      | error e => simp at h
                      | ok pu =>
                        simp only at h
                        cases hev : (send_evaluation orc.evalAttempts).1 with
                        | error e => rw [hev] at h; simp at h
                        | ok b =>
                          rw [hev] at h
                          simp only at h
                          have hs' : s' = s5 :=
                            ((Prod.mk.injEq _ _ _ _).mp h).1.symm
                          have hrounds : s'.rounds = s.rounds
                              ++ [⟨req.round, req.brief, req.checks,
                                    req.attachments.map Attachment.name⟩] := by
                            rw [hs', h5eff.1, h4.1, h3eff.1, h2eff.1, h13]
                          have hcreated : s'.created = true := by
                            rw [hs', h5eff.2, h4.2, h3eff.2]
                            -- push_files succeeded, so s2.created must be true
                            by_contra hc
                            have hc2 : s2.created = false := by
                              cases hcc : s2.created
                              · rfl
                              · exact absurd hcc hc
                            unfold push_files at hpush
                            rw [hc2] at hpush
                            simp at hpush
                          have hllm := generate_app_ok_inv req.brief req.attachments
                            req.round prev rf (some req.checks) orc.llmApp files0 hg
                          have hpages := enable_github_pages_ok_inv orc.pagesCreate
                            cfg.github_username s4 req.task s5 pu hpg
                          have heval := send_evaluation_ok_inv orc.evalAttempts b hev
                          exact ⟨⟨hrounds, hcreated⟩, ⟨files0, hllm.1, hllm.2⟩,
                            hpages, heval⟩

/-- C9, counterexample to "this is the only step where a failure is
absorbed": a concrete round-1 run in which the platform rejects the
pages-create call with a 403 `GithubException` (and the README backend
succeeds) still completes the whole round — publishing, persisting the
round record and delivering the evaluation — because
`enable_github_pages` absorbs platform errors of the create call. -/
theorem C9_pages_absorption_counterexample :
    (process_task ⟨"s3cret", "octo"⟩
        ⟨"a@b.c", "s3cret", "demo", 1, "n1", "counter app", ["check shows 0"],
          "https://eval.test/cb", []⟩
        ⟨.ok [("index.html", "<h1>0</h1>")], .ok "# demo readme",
          .error (.githubException 403 "Resource not accessible by integration"),
          fun _ => .ok ()⟩
        ⟨false, ⟨false, false, false, false, false⟩, [], [], 0, false⟩).2
      = .ok ⟨"https://github.com/octo/demo", 3, "https://octo.github.io/demo/",
          ⟨"a@b.c", "demo", 1, "n1", "https://github.com/octo/demo", 3,
            "https://octo.github.io/demo/"⟩⟩ := rfl

/-- C9, amended: when the README backend fails, `generate_readme`
returns the deterministic templated fallback instead of raising, and the
orchestrator behaves exactly as if the backend had returned that
fallback — the round continues.  The only other absorbed failure is
static-site enablement's pages-create call failing with a platform
(`GithubException`) error; every other step failure aborts the round:
a failing generation backend and a parsed mapping without the root page
abort with the store untouched, a non-platform pages-create error and an
evaluation-delivery failure make a successful round impossible, and an
unreadable repository at the round-≥2 bootstrap fails the whole
operation. -/
theorem C9_readme_fallback (taskName brief : String) (roundNum : Int) (e : PyExc)
    (cfg : Settings) (req : TaskRequest) (s : RepoStore)
    (prev : Option (List RoundRecord)) (rf : Option (List (String × String)))
    (llmApp : Except PyExc (List (String × String))) (pagesCreate : Except PyExc Unit)
    (evalAttempts : Nat → Except PyExc Unit) :
    (generate_readme taskName brief roundNum (.error e)
      = fallbackReadme taskName brief roundNum) ∧
    (process_after_bootstrap cfg req ⟨llmApp, .error e, pagesCreate, evalAttempts⟩ s prev rf
      = process_after_bootstrap cfg req
          ⟨llmApp, .ok (fallbackReadme req.task req.brief req.round), pagesCreate, evalAttempts⟩
          s prev rf) ∧
    (∀ (st : Nat) (m u r : String), s.created = true →
      enable_github_pages (.error (.githubException st m)) u s r
        = (s, .ok (pagesUrl u r))) ∧
    (∀ (e2 : PyExc) (rdm : Except PyExc String),
      (process_after_bootstrap cfg req ⟨.error e2, rdm, pagesCreate, evalAttempts⟩ s prev rf).1 = s ∧
      ∃ e3, (process_after_bootstrap cfg req ⟨.error e2, rdm, pagesCreate, evalAttempts⟩ s prev rf).2
        = .error e3) ∧
    (∀ (files : List (String × String)) (rdm : Except PyExc String) (p : String),
      create_prompt req.brief req.attachments req.round prev rf (some req.checks) = .ok p →
      files.lookup "index.html" = none →
      process_after_bootstrap cfg req ⟨.ok files, rdm, pagesCreate, evalAttempts⟩ s prev rf
        = (s, .error (.valueError "Generated files must include index.html"))) ∧
    (∀ (rdm : Except PyExc String) (pc : Except PyExc Unit)
        (ea : Nat → Except PyExc Unit) (e2 : PyExc),
      (retryCall ea 10).1 = .error e2 →
      ∀ (s' : RepoStore) (out : Outcome),
        process_after_bootstrap cfg req ⟨llmApp, rdm, pc, ea⟩ s prev rf ≠ (s', .ok out)) ∧
    (∀ (rdm : Except PyExc String) (ea : Nat → Except PyExc Unit) (e3 : PyExc),
      isGithubExc e3 = false →
      ∀ (s' : RepoStore) (out : Outcome),
        process_after_bootstrap cfg req ⟨llmApp, rdm, .error e3, ea⟩ s prev rf ≠ (s', .ok out)) ∧
    ((2 : Int) ≤ req.round → s.created = false →
      ∀ (orc2 : Oracles),
        process_task cfg req orc2 s = (s, .error (.githubException 404 "Not Found"))) := by
  refine ⟨rfl, rfl, ?_, ?_, ?_, ?_, ?_, ?_⟩
  · intro st m u r h
    simp [enable_github_pages, h]
  · intro e2 rdm
    unfold process_after_bootstrap generate_app
    cases hA : create_prompt req.brief req.attachments req.round prev rf (some req.checks) with
    | error ep => simp [hA]
    | ok p => simp [hA]
  · intro files rdm p hp hl
    unfold process_after_bootstrap generate_app
    rw [hp]
    simp [hl]
  · intro rdm pc ea e2 hfail s' out h
    obtain ⟨-, -, -, ⟨k, ws, hok⟩⟩ :=
      process_after_bootstrap_success cfg req ⟨llmApp, rdm, pc, ea⟩ s s' out prev rf h
    have hok2 : retryCall ea 10 = (.ok (), k, ws) := hok
    rw [hok2] at hfail
    exact absurd hfail (by simp)
  · intro rdm ea e3 hng s' out h
    obtain ⟨-, -, hpc, -⟩ :=
      process_after_bootstrap_success cfg req ⟨llmApp, rdm, .error e3, ea⟩ s s' out prev rf h
    have hpc2 : (Except.error e3 : Except PyExc Unit) = .ok ()
        ∨ ∃ st m, (Except.error e3 : Except PyExc Unit) = .error (.githubException st m) := hpc
    rcases hpc2 with h1 | ⟨st, m, h2⟩
    · exact absurd h1 (by simp)
    · have he3 : e3 = .githubException st m := Except.error.inj h2
      rw [he3] at hng
      simp [isGithubExc] at hng
  · intro hr2 hcf orc2
    simp [process_task, ge_iff_le, hr2, get_previous_rounds_data, get_repo_files, hcf, andThen]

/-- C9, witness: the fallback and the behavioral equality at concrete
inputs, the pages absorption on a concrete created store, and the
round's abort on a concrete evaluation-delivery failure. -/
theorem C9_readme_fallback_witness :
    (generate_readme "demo" "counter app" 1 (.error (.httpError "llm down"))
      = fallbackReadme "demo" "counter app" 1) ∧
    (enable_github_pages (.error (.githubException 403 "forbidden")) "octo"
        ⟨true, newRepoProps, [], [], 0, false⟩ "demo"
      = (⟨true, newRepoProps, [], [], 0, false⟩, .ok "https://octo.github.io/demo/")) ∧
    (process_after_bootstrap ⟨"s", "u"⟩
        ⟨"a@b.c", "s", "demo", 1, "n", "counter app", [], "u", []⟩
        ⟨.ok [("index.html", "x")], .ok "r", .ok (),
          fun _ => .error (.httpError "cb down")⟩
        ⟨true, newRepoProps, [], [], 0, false⟩ none none
      ≠ (⟨true, newRepoProps, [], [], 0, false⟩,
          .ok ⟨"u", 0, "p", ⟨"a@b.c", "demo", 1, "n", "u", 0, "p"⟩⟩)) :=
  ⟨(C9_readme_fallback "demo" "counter app" 1 (.httpError "llm down") ⟨"s", "u"⟩
      ⟨"a@b.c", "s", "demo", 1, "n", "counter app", [], "u", []⟩
      ⟨true, newRepoProps, [], [], 0, false⟩ none none (.ok []) (.ok ())
      (fun _ => .ok ())).1,
   (C9_readme_fallback "demo" "counter app" 1 (.httpError "llm down") ⟨"s", "u"⟩
      ⟨"a@b.c", "s", "demo", 1, "n", "counter app", [], "u", []⟩
      ⟨true, newRepoProps, [], [], 0, false⟩ none none (.ok []) (.ok ())
      (fun _ => .ok ())).2.2.1 403 "forbidden" "octo" "demo" rfl,
   (C9_readme_fallback "demo" "counter app" 1 (.httpError "llm down") ⟨"s", "u"⟩
      ⟨"a@b.c", "s", "demo", 1, "n", "counter app", [], "u", []⟩
      ⟨true, newRepoProps, [], [], 0, false⟩ none none (.ok [("index.html", "x")])
      (.ok ()) (fun _ => .ok ())).2.2.2.2.2.1 (.ok "r") (.ok ())
      (fun _ => .error (.httpError "cb down")) (.retryError (.httpError "cb down")) rfl
      ⟨true, newRepoProps, [], [], 0, false⟩
      ⟨"u", 0, "p", ⟨"a@b.c", "demo", 1, "n", "u", 0, "p"⟩⟩⟩

/-- C2: for a Task Request with round ≥ 2, the orchestrator first
fetches all prior Round Records for the task (those with round number
below the current round, in stored order) and the full current file set,
and runs the remaining steps with exactly those two inputs; when the
repository cannot be read, the whole operation fails with the platform's
error and nothing else runs. -/
theorem C2_round2_bootstrap (cfg : Settings) (req : TaskRequest) (orc : Oracles)
    (s : RepoStore) (hr : (2 : Int) ≤ req.round) :
    (s.created = true →
      process_task cfg req orc s
        = process_after_bootstrap cfg req orc s
            (some (s.rounds.filter (fun r => r.round < req.round)))
            (some (s.files.map (fun f => (f.path, f.content))))) ∧
    (s.created = false →
      process_task cfg req orc s = (s, .error (.githubException 404 "Not Found"))) := by
  constructor <;> intro h <;>
    simp [process_task, ge_iff_le, hr, get_previous_rounds_data, get_repo_files, h, andThen]

/-- C2, witness: a concrete round-2 request against a readable
repository passes the stored round-1 record and the current file to the
generation phase; against a missing repository the whole operation
fails. -/
theorem C2_round2_bootstrap_witness :
    (process_task ⟨"s3cret", "octo"⟩
        ⟨"a@b.c", "s3cret", "demo", 2, "n2", "add reset", ["check reset"],
          "https://eval.test/cb", []⟩
        ⟨.ok [("index.html", "y")], .ok "r", .ok (), fun _ => .ok ()⟩
        ⟨true, newRepoProps, [⟨"index.html", "x", 2⟩],
          [⟨1, "counter app", ["check shows 0"], []⟩], 2, true⟩
      = process_after_bootstrap ⟨"s3cret", "octo"⟩
          ⟨"a@b.c", "s3cret", "demo", 2, "n2", "add reset", ["check reset"],
            "https://eval.test/cb", []⟩
          ⟨.ok [("index.html", "y")], .ok "r", .ok (), fun _ => .ok ()⟩
          ⟨true, newRepoProps, [⟨"index.html", "x", 2⟩],
            [⟨1, "counter app", ["check shows 0"], []⟩], 2, true⟩
          (some [⟨1, "counter app", ["check shows 0"], []⟩])
          (some [("index.html", "x")])) ∧
    (process_task ⟨"s3cret", "octo"⟩
        ⟨"a@b.c", "s3cret", "demo", 2, "n2", "add reset", ["check reset"],
          "https://eval.test/cb", []⟩
        ⟨.ok [("index.html", "y")], .ok "r", .ok (), fun _ => .ok ()⟩
        ⟨false, newRepoProps, [], [], 0, false⟩
      = (⟨false, newRepoProps, [], [], 0, false⟩,
          .error (.githubException 404 "Not Found"))) :=
  ⟨(C2_round2_bootstrap ⟨"s3cret", "octo"⟩
      ⟨"a@b.c", "s3cret", "demo", 2, "n2", "add reset", ["check reset"],
        "https://eval.test/cb", []⟩
      ⟨.ok [("index.html", "y")], .ok "r", .ok (), fun _ => .ok ()⟩
      ⟨true, newRepoProps, [⟨"index.html", "x", 2⟩],
        [⟨1, "counter app", ["check shows 0"], []⟩], 2, true⟩
      (by decide)).1 rfl,
   (C2_round2_bootstrap ⟨"s3cret", "octo"⟩
      ⟨"a@b.c", "s3cret", "demo", 2, "n2", "add reset", ["check reset"],
        "https://eval.test/cb", []⟩
      ⟨.ok [("index.html", "y")], .ok "r", .ok (), fun _ => .ok ()⟩
      ⟨false, newRepoProps, [], [], 0, false⟩
      (by decide)).2 rfl⟩

/-- The contiguous round-number sequence 1..n. -/
def seq1to (n : Nat) : List Int :=
  (List.range n).map (fun k => Int.ofNat (k + 1))

/-- C1: a successful round appends exactly this round's Round Record
(brief, checks, attachment names) to repository-durable storage after
the file pushes, so that when rounds run in order the stored records
form the contiguous sequence 1..N — and round N+1's bootstrap read
returns all of them, in order. -/
theorem C1_round_record_persistence (cfg : Settings) (req : TaskRequest) (orc : Oracles)
    (s s' : RepoStore) (out : Outcome) (n : Nat)
    (hrun : process_task cfg req orc s = (s', .ok out))
    (hprev : s.rounds.map RoundRecord.round = seq1to n)
    (hround : req.round = (n : Int) + 1) :
    s'.rounds = s.rounds
      ++ [⟨req.round, req.brief, req.checks, req.attachments.map Attachment.name⟩] ∧
    s'.rounds.map RoundRecord.round = seq1to (n + 1) ∧
    get_previous_rounds_data s' req.task (req.round + 1) = (s', .ok s'.rounds) := by
  have hpb : ∃ prev rf, process_after_bootstrap cfg req orc s prev rf = (s', .ok out) := by
    unfold process_task at hrun
    by_cases h2 : req.round ≥ 2
    · rw [if_pos h2] at hrun
      unfold andThen get_previous_rounds_data get_repo_files at hrun
      by_cases hc : s.created
      · simp only [hc, if_true] at hrun
        exact ⟨_, _, hrun⟩
      · simp only [Bool.not_eq_true] at hc
        simp [hc] at hrun
    · rw [if_neg h2] at hrun
      exact ⟨none, none, hrun⟩
  obtain ⟨prev, rf, hpb⟩ := hpb
  obtain ⟨⟨hrounds, hcreated⟩, -, -, -⟩ :=
    process_after_bootstrap_success cfg req orc s s' out prev rf hpb
  have hmap : s'.rounds.map RoundRecord.round = seq1to (n + 1) := by
    rw [hrounds, List.map_append, hprev]
    unfold seq1to
    rw [List.range_succ, List.map_append]
    simp [hround]
  refine ⟨hrounds, hmap, ?_⟩
  have hmem : ∀ r ∈ s'.rounds, r.round < req.round + 1 := by
    intro r hr
    have hin : r.round ∈ s'.rounds.map RoundRecord.round := List.mem_map_of_mem _ hr
    rw [hmap] at hin
    unfold seq1to at hin
    rcases List.mem_map.mp hin with ⟨k, hk, hkr⟩
    have hkn : k < n + 1 := List.mem_range.mp hk
    have hkr2 : ((k + 1 : Nat) : Int) = r.round := hkr
    rw [hround]
    omega
  have hfil : s'.rounds.filter (fun r => r.round < req.round + 1) = s'.rounds := by
    rw [List.filter_eq_self]
    intro a ha
    simpa using hmem a ha
  simp [get_previous_rounds_data, hcreated, hfil]

/-- C1, witness: a concrete successful round 2 on a repository holding
the round-1 record appends the round-2 record, yielding the contiguous
stored sequence 1, 2, all of it returned by the round-3 bootstrap read. -/
theorem C1_round_record_persistence_witness :
    (⟨true, newRepoProps,
        [⟨"index.html", "<h1>1</h1>", 4⟩, ⟨"LICENSE", mitLicense "octo", 3⟩,
          ⟨"README.md", "# r2", 5⟩],
        [⟨1, "counter app", ["check shows 0"], []⟩, ⟨2, "add reset", ["check reset"], []⟩],
        5, true⟩ : RepoStore).rounds
      = [⟨1, "counter app", ["check shows 0"], []⟩]
        ++ [⟨2, "add reset", ["check reset"], []⟩] ∧
    ([⟨1, "counter app", ["check shows 0"], []⟩,
      ⟨2, "add reset", ["check reset"], []⟩] : List RoundRecord).map RoundRecord.round
      = seq1to 2 ∧
    get_previous_rounds_data
        ⟨true, newRepoProps,
          [⟨"index.html", "<h1>1</h1>", 4⟩, ⟨"LICENSE", mitLicense "octo", 3⟩,
            ⟨"README.md", "# r2", 5⟩],
          [⟨1, "counter app", ["check shows 0"], []⟩, ⟨2, "add reset", ["check reset"], []⟩],
          5, true⟩ "demo" 3
      = (⟨true, newRepoProps,
          [⟨"index.html", "<h1>1</h1>", 4⟩, ⟨"LICENSE", mitLicense "octo", 3⟩,
            ⟨"README.md", "# r2", 5⟩],
          [⟨1, "counter app", ["check shows 0"], []⟩, ⟨2, "add reset", ["check reset"], []⟩],
          5, true⟩,
        .ok [⟨1, "counter app", ["check shows 0"], []⟩,
          ⟨2, "add reset", ["check reset"], []⟩]) :=
  C1_round_record_persistence ⟨"s3cret", "octo"⟩
    ⟨"a@b.c", "s3cret", "demo", 2, "n2", "add reset", ["check reset"],
      "https://eval.test/cb", []⟩
    ⟨.ok [("index.html", "<h1>1</h1>")], .ok "# r2", .ok (), fun _ => .ok ()⟩
    ⟨true, newRepoProps, [⟨"index.html", "<h1>0</h1>", 2⟩],
      [⟨1, "counter app", ["check shows 0"], []⟩], 2, true⟩
    ⟨true, newRepoProps,
      [⟨"index.html", "<h1>1</h1>", 4⟩, ⟨"LICENSE", mitLicense "octo", 3⟩,
        ⟨"README.md", "# r2", 5⟩],
      [⟨1, "counter app", ["check shows 0"], []⟩, ⟨2, "add reset", ["check reset"], []⟩],
      5, true⟩
    ⟨"https://github.com/octo/demo", 5, "https://octo.github.io/demo/",
      ⟨"a@b.c", "demo", 2, "n2", "https://github.com/octo/demo", 5,
        "https://octo.github.io/demo/"⟩⟩
    1 rfl (by decide) (by decide)
